import Mathlib

/-!
Shallow embedding of the metric-collection engine of `electrolux_exporter`
(package `collector`, file `cmd/electrolux_exporter/main.go` of the combined
source listing).  Metric values (Go `float64`) are modelled as exact rationals
(`ℚ`); `time.Time` last-updated stamps are modelled as integers with
`Time.After` being strict `>`.  Optional (pointer) fields of the reported
state are `Option`s; `UILight` and `SafetyLock` are plain `Bool`s because the
Go struct fields are non-pointer `bool` (the code passes `&reported.UILight`
and `&reported.SafetyLock` to `maybeCollectBoolMetric`).
-/

namespace ElxCollector

/-- One metric family, mirroring the `prometheus.Desc` fields of `Collector`. -/
inductive MetricID where
  | connected
  | workmode
  | doorOpen
  | uiLight
  | safetyLock
  | ionizer
  | filterLife
  | filterType
  | rssi
  | fanspeed
  | fanspeedMax
  | fanspeedRaw
  | temperature
  | humidity
  | pm1
  | pm25
  | pm10
  | co2
  | tvoc
  | vocDensity
deriving DecidableEq

/-- Timestamp metadata of one reported field (`LastUpdated` of `time.Time`,
modelled as an integer instant; `Time.After` is strict `>`). -/
structure FieldMetadata where
  lastUpdated : ℤ
deriving DecidableEq

/-- The per-field metadata sub-record used by the tie-breaks. -/
structure ReportedMetadata where
  filterLife : FieldMetadata
  filterLife1 : FieldMetadata
  co2 : FieldMetadata
  eco2 : FieldMetadata
deriving DecidableEq

/-- The volatile `Properties.Reported` snapshot; Go pointer fields are
`Option`, Go plain fields are bare values. -/
structure Reported where
  workmode : String
  doorOpen : Option Bool
  uiLight : Bool
  safetyLock : Bool
  ionizer : Option Bool
  filterLife : Option ℤ
  filterLife1 : Option ℤ
  filterType : Option ℤ
  rssi : Option ℤ
  fanspeed : ℤ
  temp : Option ℤ
  humidity : Option ℤ
  pm1 : Option ℤ
  pm25 : Option ℤ
  pm25Approximate : Option ℤ
  pm10 : Option ℤ
  co2 : Option ℤ
  eco2 : Option ℤ
  tvoc : Option ℤ
  metadata : ReportedMetadata
deriving DecidableEq

/-- `ocpapi.ApplianceID`: a stable identifier whose `PNC()` is a projection
and whose `String()` is the full identifier (pnc followed by the rest). -/
structure ApplianceID where
  pnc : String
  rest : String
deriving DecidableEq

/-- `ApplianceID.String()`. -/
def ApplianceID.toStr (id : ApplianceID) : String :=
  id.pnc ++ id.rest

/-- `ApplianceData`: display name and model name. -/
structure ApplianceData where
  applianceName : String
  modelName : String
deriving DecidableEq

/-- `Properties` wrapper around the reported state. -/
structure Properties where
  reported : Reported
deriving DecidableEq

/-- One listed appliance as returned by `client.Appliances`. -/
structure Appliance where
  applianceID : ApplianceID
  connectionState : String
  applianceData : ApplianceData
  properties : Properties
deriving DecidableEq

/-- Slow-changing metadata returned by `client.AppliancesInfo`. -/
structure ApplianceInfo where
  pnc : String
  brand : String
  productArea : String
  deviceType : String
  model : String
  variant : String
deriving DecidableEq

/-- The Go zero value of `ApplianceInfo`, produced by a lookup miss on
`map[string]ApplianceInfo`. -/
def ApplianceInfo.zero : ApplianceInfo :=
  ⟨"", "", "", "", "", ""⟩

/-- One emitted metric sample: metric family, label tuple, gauge value. -/
structure MetricSample where
  id : MetricID
  labels : List String
  value : ℚ
deriving DecidableEq

/-- `boolToFloat64`. -/
def boolToFloat64 (b : Bool) : ℚ :=
  if b then 1 else 0

/-- `workmode`: work-mode string to numeric code, `-1` for unknown. -/
def workmode (s : String) : ℚ :=
  if s = "PowerOff" then 0
  else if s = "Manual" then 1
  else if s = "Auto" then 2
  else if s = "Quiet" then 3
  else -1

/-- `fanspeed`: per-model maximum table; returns `(perc, max, ok)` where
`ok = false` means the model is unrecognized. -/
def fanspeed (model : String) (speed : ℤ) : ℚ × ℚ × Bool :=
  if model = "PUREA9" ∨ model = "AX9" then
    ((speed : ℚ) / 9, 9, true)
  else if model = "WELLA5" ∨ model = "AX5" ∨ model = "WELLA7" ∨ model = "AX7" then
    ((speed : ℚ) / 5, 5, true)
  else if model = "FLOWA3" ∨ model = "AX3" then
    ((speed : ℚ) / 3, 3, true)
  else if model = "Muju" ∨ model = "PURE500" then
    ((speed : ℚ) / 3, 3, true)
  else
    (0, 0, false)

/-- `tvocPPBToVocDensity`: TVOC ppb to VOC density (μg/m^3). -/
def tvocPPBToVocDensity (ppb temperature : ℤ) (molecularWeight : ℚ) : ℚ :=
  (101.325 * molecularWeight * (ppb : ℚ)) /
    (8.31446261815324 * (273.15 + (temperature : ℚ)))

/-- Resolution of the two optional filter-life readings (the `switch` over
`FilterLife1`/`FilterLife` at the top of the per-appliance body): when both
are present the alternate `FilterLife1` wins only when its `LastUpdated` is
strictly after that of `FilterLife`. -/
def filterLifeResolved (r : Reported) : Option ℤ :=
  match r.filterLife1, r.filterLife with
  | some v1, some v0 =>
      if r.metadata.filterLife.lastUpdated < r.metadata.filterLife1.lastUpdated then
        some v1
      else
        some v0
  | some v1, none => some v1
  | none, some v0 => some v0
  | none, none => none

/-- Resolution of the two optional CO2 readings (the `switch` over
`CO2`/`ECO2`): `ECO2` wins only when its `LastUpdated` is strictly after
that of `CO2`. -/
def co2Resolved (r : Reported) : Option ℤ :=
  match r.co2, r.eco2 with
  | some v0, some v1 =>
      if r.metadata.co2.lastUpdated < r.metadata.eco2.lastUpdated then
        some v1
      else
        some v0
  | none, some v1 => some v1
  | some v0, none => some v0
  | none, none => none

/-- Resolution of PM2.5 (the `switch` over `PM25`/`PM25Approximate`):
the direct reading is preferred, the approximate one is a fallback. -/
def pm25Resolved (r : Reported) : Option ℤ :=
  match r.pm25, r.pm25Approximate with
  | some v, _ => some v
  | none, some v => some v
  | none, none => none

/-- The temperature fed to the TVOC conversion: the reported one when
present, else 25 °C. -/
def vocTemperature (r : Reported) : ℤ :=
  match r.temp with
  | some t => t
  | none => 25

/-- `math.Round`: nearest integer, half away from zero. -/
def mathRound (x : ℚ) : ℤ :=
  if 0 ≤ x then ⌊x + 1/2⌋ else ⌈x - 1/2⌉

/-- `round`: round to the given number of decimals via `math.Round`. -/
def round (f : ℚ) (decimals : ℕ) : ℚ :=
  let shift : ℚ := 10 ^ decimals
  (mathRound (f * shift) : ℚ) / shift

/-- The label tuple built for an eligible appliance, in declaration order. -/
def applianceLabels (info : ApplianceInfo) (a : Appliance) : List String :=
  [info.pnc, info.brand, info.productArea, info.deviceType, info.model,
   info.variant, a.applianceID.toStr, a.applianceData.applianceName,
   a.applianceData.modelName]

/-- Emission of at most one sample of the given family: `collectMetric`
corresponds to a `some` argument, `maybeCollectIntMetric` /
`maybeCollectBoolMetric` and the guarded emissions correspond to mapping the
optional resolved value. -/
def optSample (L : List String) (id : MetricID) (v : Option ℚ) : List MetricSample :=
  match v with
  | some q => [⟨id, L, q⟩]
  | none => []

/-- The per-appliance emission sequence of `Collector.Collect`, in source
order, for an appliance that passed the device-type check.  `mw` is
`c.options.MolecularWeight`. -/
def collectAppliance (mw : ℚ) (info : ApplianceInfo) (a : Appliance) : List MetricSample :=
  let r := a.properties.reported
  let L := applianceLabels info a
  let fs := fanspeed a.applianceData.modelName r.fanspeed
  optSample L .connected (some (boolToFloat64 (a.connectionState = "Connected")))
  ++ optSample L .workmode (some (workmode r.workmode))
  ++ optSample L .doorOpen (r.doorOpen.map boolToFloat64)
  ++ optSample L .uiLight (some (boolToFloat64 r.uiLight))
  ++ optSample L .safetyLock (some (boolToFloat64 r.safetyLock))
  ++ optSample L .ionizer (r.ionizer.map boolToFloat64)
  ++ optSample L .filterLife ((filterLifeResolved r).map (fun v => (v : ℚ) / 100))
  ++ optSample L .filterType (r.filterType.map (fun v => (v : ℚ)))
  ++ optSample L .rssi (r.rssi.map (fun v => (v : ℚ)))
  ++ optSample L .fanspeed (if fs.2.2 then some (round fs.1 2) else none)
  ++ optSample L .fanspeedMax (if fs.2.2 then some fs.2.1 else none)
  ++ optSample L .fanspeedRaw (some ((r.fanspeed : ℚ)))
  ++ optSample L .temperature (r.temp.map (fun v => (v : ℚ)))
  ++ optSample L .humidity (r.humidity.map (fun v => (v : ℚ) / 100))
  ++ optSample L .pm1 (r.pm1.map (fun v => (v : ℚ)))
  ++ optSample L .pm25 ((pm25Resolved r).map (fun v => (v : ℚ)))
  ++ optSample L .pm10 (r.pm10.map (fun v => (v : ℚ)))
  ++ optSample L .tvoc (r.tvoc.map (fun v => (v : ℚ)))
  ++ optSample L .vocDensity
       (r.tvoc.map (fun ppb => round (tvocPPBToVocDensity ppb (vocTemperature r) mw) 2))
  ++ optSample L .co2 ((co2Resolved r).map (fun v => (v : ℚ)))

/-- The appliance-info cache `map[string]ApplianceInfo`, modelled as an
association list queried through `lookup` only. -/
abbrev Cache : Type := List (String × ApplianceInfo)

/-- Map read `c.applianceInfos[k]` (without the zero-value defaulting). -/
def Cache.lookup (c : Cache) (k : String) : Option ApplianceInfo :=
  match List.find? (fun p => p.1 = k) c with
  | some p => some p.2
  | none => none

/-- Map assignment `c.applianceInfos[k] = v`: the new binding shadows any
older one under `lookup`. -/
def Cache.insert (c : Cache) (k : String) (v : ApplianceInfo) : Cache :=
  (k, v) :: c

/-- The loop inserting each fetched info under its PNC. -/
def fill (infos : List ApplianceInfo) (c : Cache) : Cache :=
  infos.foldl (fun c info => c.insert info.pnc info) c

/-- The identifiers of listed appliances with no cached info, in list order
(the first loop of `Collect`). -/
def uncachedIDs (c : Cache) (appliances : List Appliance) : List String :=
  (appliances.filter (fun a => (c.lookup a.applianceID.pnc).isNone)).map
    (fun a => a.applianceID.toStr)

/-- The contribution of one listed appliance to the pass: the zero-value
`ApplianceInfo` stands in on a cache miss, and an appliance whose cached
device type is not `AIR_PURIFIER` is skipped. -/
def emitFor (mw : ℚ) (c : Cache) (a : Appliance) : List MetricSample :=
  let info := (c.lookup a.applianceID.pnc).getD ApplianceInfo.zero
  if info.deviceType = "AIR_PURIFIER" then collectAppliance mw info a else []

/-- The main loop of `Collect` over the listed appliances. -/
def emitAll (mw : ℚ) (c : Cache) (appliances : List Appliance) : List MetricSample :=
  (appliances.map (emitFor mw c)).flatten

/-- The API collaborator, as an oracle giving the results of the two external
calls of one pass. -/
structure Client where
  appliances : Except String (List Appliance)
  appliancesInfo : List String → Except String (List ApplianceInfo)

/-- Result of one collection pass: the emitted samples, the cache afterwards,
and the batched info fetches that were issued. -/
structure CollectResult where
  samples : List MetricSample
  cache : Cache
  infoCalls : List (List String)
deriving DecidableEq

/-- One pass of `Collector.Collect`: list appliances (abort on error),
batch-fetch info for uncached ones when there are any (abort on error),
then emit per-appliance samples against the filled cache. -/
def collect (client : Client) (mw : ℚ) (c : Cache) : CollectResult :=
  match client.appliances with
  | .error _ => ⟨[], c, []⟩
  | .ok appliances =>
      let ids := uncachedIDs c appliances
      if ids.isEmpty then
        ⟨emitAll mw c appliances, c, []⟩
      else
        match client.appliancesInfo ids with
        | .error _ => ⟨[], c, [ids]⟩
        | .ok infos =>
            let c2 := fill infos c
            ⟨emitAll mw c2 appliances, c2, [ids]⟩

/-- The values of all samples of one family, in emission order. -/
def valuesFor (id : MetricID) (l : List MetricSample) : List ℚ :=
  (l.filter (fun s => s.id == id)).map (fun s => s.value)

/-- The claim-C4 comparison appliance: the same appliance with an explicit
25 °C temperature reading. -/
def withTemp25 (a : Appliance) : Appliance :=
  { a with properties := ⟨{ a.properties.reported with temp := some 25 }⟩ }

/-- A reported state with every optional field absent and every plain field
at its zero value, used as the base of the concrete test appliances. -/
def rep0 : Reported where
  workmode := "Manual"
  doorOpen := none
  uiLight := false
  safetyLock := false
  ionizer := none
  filterLife := none
  filterLife1 := none
  filterType := none
  rssi := none
  fanspeed := 0
  temp := none
  humidity := none
  pm1 := none
  pm25 := none
  pm25Approximate := none
  pm10 := none
  co2 := none
  eco2 := none
  tvoc := none
  metadata := ⟨⟨0⟩, ⟨0⟩, ⟨0⟩, ⟨0⟩⟩

/-- PNC used by the test appliances. -/
def pncA : String := "950"

/-- Model name of a table-listed appliance. -/
def modelKnown : String := "PUREA9"

/-- Model name absent from the fan-speed table. -/
def modelUnknown : String := "SOMETHINGELSE"

/-- An error message for the simulated API failures. -/
def errMsg : String := "simulated failure"

/-- A concrete appliance built from a reported state and model name. -/
def mkAp (r : Reported) (model : String) : Appliance where
  applianceID := ⟨pncA, "123"⟩
  connectionState := "Connected"
  applianceData := ⟨"Living room", model⟩
  properties := ⟨r⟩

/-- Cached info of an eligible (air purifier) appliance. -/
def infoAP : ApplianceInfo where
  pnc := pncA
  brand := "Electrolux"
  productArea := "WELLBEING"
  deviceType := "AIR_PURIFIER"
  model := "PUREA9"
  variant := "A9"

/-- Appliance with both filter-life readings (spec example: A=80 at t=10,
B=60 at t=20). -/
def apBoth : Appliance :=
  mkAp { rep0 with
          filterLife := some 80
          filterLife1 := some 60
          metadata := ⟨⟨10⟩, ⟨20⟩, ⟨0⟩, ⟨0⟩⟩ } modelKnown

/-- Appliance with only the primary filter-life reading. -/
def apOnly : Appliance :=
  mkAp { rep0 with filterLife := some 80 } modelKnown

/-- Appliance with no filter-life (and no CO2) readings at all. -/
def apNone : Appliance :=
  mkAp rep0 modelKnown

/-- Appliance with a TVOC reading and no temperature. -/
def apTvoc : Appliance :=
  mkAp { rep0 with tvoc := some 100 } modelKnown

/-- Appliance with raw fan speed 3 on a model with table maximum 9. -/
def apFan : Appliance :=
  mkAp { rep0 with fanspeed := 3 } modelKnown

/-- Appliance with raw fan speed 3 on a model missing from the table. -/
def apFanUnknown : Appliance :=
  mkAp { rep0 with fanspeed := 3 } modelUnknown

/-- Appliance with both CO2 readings, the alternate one updated later. -/
def apCO2Both : Appliance :=
  mkAp { rep0 with
          co2 := some 700
          eco2 := some 650
          metadata := ⟨⟨0⟩, ⟨0⟩, ⟨10⟩, ⟨20⟩⟩ } modelKnown

/-- Appliance with only the alternate CO2 reading. -/
def apECO2Only : Appliance :=
  mkAp { rep0 with eco2 := some 650 } modelKnown

/-- Appliance whose two filter-life and two CO2 readings carry exactly equal
timestamps. -/
def apTies : Appliance :=
  mkAp { rep0 with
          filterLife := some 80
          filterLife1 := some 60
          co2 := some 700
          eco2 := some 650
          metadata := ⟨⟨10⟩, ⟨10⟩, ⟨20⟩, ⟨20⟩⟩ } modelKnown

/-- A client whose appliance-list fetch fails. -/
def clientListErr : Client where
  appliances := .error errMsg
  appliancesInfo := fun _ => .ok []

/-- A client whose list fetch succeeds but whose batch info fetch fails. -/
def clientInfoErr : Client where
  appliances := .ok [apNone]
  appliancesInfo := fun _ => .error errMsg

/-- A well-behaved client: one appliance, info fetch returns its info. -/
def clientOK : Client where
  appliances := .ok [apNone]
  appliancesInfo := fun _ => .ok [infoAP]

theorem valuesFor_append (id : MetricID) (l1 l2 : List MetricSample) :
    valuesFor id (l1 ++ l2) = valuesFor id l1 ++ valuesFor id l2 := by
  simp [valuesFor, List.filter_append]

theorem valuesFor_optSample_self (id : MetricID) (L : List String) (v : Option ℚ) :
    valuesFor id (optSample L id v) = v.toList := by
  cases v <;> simp [valuesFor, optSample]

theorem valuesFor_optSample_of_ne (id idd : MetricID) (L : List String) (v : Option ℚ)
    (h : ¬ idd = id) : valuesFor id (optSample L idd v) = [] := by
  cases v <;> simp [valuesFor, optSample, h]

/-- Claim C1, counterexample: the UI-light and safety-lock fields are plain
(non-pointer) booleans of the reported state, so no appliance emission can
ever lack a UI-light or a safety-lock sample; the claim's "yields no sample
at all when the field is absent" is impossible for these two fields. -/
theorem c1_counterexample :
    ¬ ∃ (mw : ℚ) (info : ApplianceInfo) (a : Appliance),
        valuesFor .uiLight (collectAppliance mw info a) = []
      ∨ valuesFor .safetyLock (collectAppliance mw info a) = [] := by
  rintro ⟨mw, info, a, h | h⟩ <;>
    simp only [collectAppliance, valuesFor_append, valuesFor_optSample_self,
      valuesFor_optSample_of_ne, reduceCtorEq, not_false_iff,
      List.append_nil, List.nil_append, Option.toList_some,
      List.append_eq_nil] at h

/-- Claim C1, amended: door open and ionizer are optional boolean fields — a
sample 1.0 when reported true, 0.0 when false, and no sample when absent;
UI light and safety lock are plain always-present booleans of the reported
state and yield a sample (1.0 true / 0.0 false) on every emission. -/
theorem c1_boolean_gauge_mapping (mw : ℚ) (info : ApplianceInfo) (a : Appliance) :
    valuesFor .doorOpen (collectAppliance mw info a)
        = (a.properties.reported.doorOpen.map boolToFloat64).toList
  ∧ valuesFor .ionizer (collectAppliance mw info a)
        = (a.properties.reported.ionizer.map boolToFloat64).toList
  ∧ valuesFor .uiLight (collectAppliance mw info a)
        = [boolToFloat64 a.properties.reported.uiLight]
  ∧ valuesFor .safetyLock (collectAppliance mw info a)
        = [boolToFloat64 a.properties.reported.safetyLock]
  ∧ boolToFloat64 true = 1 ∧ boolToFloat64 false = 0 := by
  refine ⟨?_, ?_, ?_, ?_, rfl, rfl⟩ <;>
    simp only [collectAppliance, valuesFor_append, valuesFor_optSample_self,
      valuesFor_optSample_of_ne, reduceCtorEq, not_false_iff,
      List.append_nil, List.nil_append, Option.toList_some]

/-- Claim C2: an appliance whose cached device type is not AIR_PURIFIER
contributes no metric sample whatsoever to the collection pass, regardless
of its reported state. -/
theorem c2_device_type_filtering (mw : ℚ) (c : Cache) (appliances : List Appliance)
    (a : Appliance)
    (h : ((c.lookup a.applianceID.pnc).getD ApplianceInfo.zero).deviceType ≠ "AIR_PURIFIER") :
    emitFor mw c a = [] ∧ emitAll mw c (a :: appliances) = emitAll mw c appliances := by
  have h1 : emitFor mw c a = [] := by
    simp only [emitFor]
    rw [if_neg h]
  exact ⟨h1, by simp [emitAll, h1]⟩

theorem c2_witness :
    emitFor 1 [] apNone = [] ∧ emitAll 1 [] (apNone :: []) = emitAll 1 [] [] :=
  c2_device_type_filtering 1 [] [] apNone (by decide)

/-- Claim C3: filter-life resolution chooses the later-updated of the two
optional readings when both are present, the present one when exactly one is
present, nothing when neither is, and emits the chosen 0–100 value divided
by 100. -/
theorem c3_filter_life_resolution (mw : ℚ) (info : ApplianceInfo) (a : Appliance)
    (v0 v1 : ℤ) :
    (a.properties.reported.filterLife = some v0 →
     a.properties.reported.filterLife1 = some v1 →
     a.properties.reported.metadata.filterLife.lastUpdated <
       a.properties.reported.metadata.filterLife1.lastUpdated →
     valuesFor .filterLife (collectAppliance mw info a) = [(v1 : ℚ) / 100])
  ∧ (a.properties.reported.filterLife = some v0 →
     a.properties.reported.filterLife1 = some v1 →
     a.properties.reported.metadata.filterLife1.lastUpdated <
       a.properties.reported.metadata.filterLife.lastUpdated →
     valuesFor .filterLife (collectAppliance mw info a) = [(v0 : ℚ) / 100])
  ∧ (a.properties.reported.filterLife = some v0 →
     a.properties.reported.filterLife1 = none →
     valuesFor .filterLife (collectAppliance mw info a) = [(v0 : ℚ) / 100])
  ∧ (a.properties.reported.filterLife = none →
     a.properties.reported.filterLife1 = some v1 →
     valuesFor .filterLife (collectAppliance mw info a) = [(v1 : ℚ) / 100])
  ∧ (a.properties.reported.filterLife = none →
     a.properties.reported.filterLife1 = none →
     valuesFor .filterLife (collectAppliance mw info a) = []) := by
  have key : valuesFor .filterLife (collectAppliance mw info a)
      = ((filterLifeResolved a.properties.reported).map
          (fun v => (v : ℚ) / 100)).toList := by
    simp only [collectAppliance, valuesFor_append, valuesFor_optSample_self,
      valuesFor_optSample_of_ne, reduceCtorEq, not_false_iff,
      List.append_nil, List.nil_append]
  refine ⟨fun h0 h1 hlt => ?_, fun h0 h1 hlt => ?_, fun h0 h1 => ?_,
    fun h0 h1 => ?_, fun h0 h1 => ?_⟩
  · rw [key]; simp [filterLifeResolved, h0, h1, hlt]
  · rw [key]; simp [filterLifeResolved, h0, h1, lt_asymm hlt]
  · rw [key]; simp [filterLifeResolved, h0, h1]
  · rw [key]; simp [filterLifeResolved, h0, h1]
  · rw [key]; simp [filterLifeResolved, h0, h1]

theorem c3_witness :
    valuesFor .filterLife (collectAppliance 1 infoAP apBoth) = [(60 : ℚ) / 100]
  ∧ valuesFor .filterLife (collectAppliance 1 infoAP apOnly) = [(80 : ℚ) / 100]
  ∧ valuesFor .filterLife (collectAppliance 1 infoAP apNone) = [] :=
  ⟨(c3_filter_life_resolution 1 infoAP apBoth 80 60).1 rfl rfl (by decide),
   (c3_filter_life_resolution 1 infoAP apOnly 80 0).2.2.1 rfl rfl,
   (c3_filter_life_resolution 1 infoAP apNone 0 0).2.2.2.2 rfl rfl⟩

/-- Claim C8: CO2 resolution follows the same later-timestamp tie-break as
filter-life, independently of it: the alternate ECO2 reading wins only when
strictly later, a single present reading is emitted as is, and neither
present emits nothing. -/
theorem c8_co2_resolution (mw : ℚ) (info : ApplianceInfo) (a : Appliance)
    (w0 w1 : ℤ) :
    (a.properties.reported.co2 = some w0 →
     a.properties.reported.eco2 = some w1 →
     a.properties.reported.metadata.co2.lastUpdated <
       a.properties.reported.metadata.eco2.lastUpdated →
     valuesFor .co2 (collectAppliance mw info a) = [(w1 : ℚ)])
  ∧ (a.properties.reported.co2 = some w0 →
     a.properties.reported.eco2 = some w1 →
     a.properties.reported.metadata.eco2.lastUpdated <
       a.properties.reported.metadata.co2.lastUpdated →
     valuesFor .co2 (collectAppliance mw info a) = [(w0 : ℚ)])
  ∧ (a.properties.reported.co2 = some w0 →
     a.properties.reported.eco2 = none →
     valuesFor .co2 (collectAppliance mw info a) = [(w0 : ℚ)])
  ∧ (a.properties.reported.co2 = none →
     a.properties.reported.eco2 = some w1 →
     valuesFor .co2 (collectAppliance mw info a) = [(w1 : ℚ)])
  ∧ (a.properties.reported.co2 = none →
     a.properties.reported.eco2 = none →
     valuesFor .co2 (collectAppliance mw info a) = []) := by
  have key : valuesFor .co2 (collectAppliance mw info a)
      = ((co2Resolved a.properties.reported).map (fun v => (v : ℚ))).toList := by
    simp only [collectAppliance, valuesFor_append, valuesFor_optSample_self,
      valuesFor_optSample_of_ne, reduceCtorEq, not_false_iff,
      List.append_nil, List.nil_append]
  refine ⟨fun h0 h1 hlt => ?_, fun h0 h1 hlt => ?_, fun h0 h1 => ?_,
    fun h0 h1 => ?_, fun h0 h1 => ?_⟩
  · rw [key]; simp [co2Resolved, h0, h1, hlt]
  · rw [key]; simp [co2Resolved, h0, h1, lt_asymm hlt]
  · rw [key]; simp [co2Resolved, h0, h1]
  · rw [key]; simp [co2Resolved, h0, h1]
  · rw [key]; simp [co2Resolved, h0, h1]

theorem c8_witness :
    valuesFor .co2 (collectAppliance 1 infoAP apCO2Both) = [(650 : ℚ)]
  ∧ valuesFor .co2 (collectAppliance 1 infoAP apECO2Only) = [(650 : ℚ)]
  ∧ valuesFor .co2 (collectAppliance 1 infoAP apNone) = [] :=
  ⟨(c8_co2_resolution 1 infoAP apCO2Both 700 650).1 rfl rfl (by decide),
   (c8_co2_resolution 1 infoAP apECO2Only 0 650).2.2.2.1 rfl rfl,
   (c8_co2_resolution 1 infoAP apNone 0 0).2.2.2.2 rfl rfl⟩

/-- Claim C10: with both readings present and exactly equal last-updated
timestamps, the primary reading is chosen — FilterLife rather than
FilterLife1 and CO2 rather than ECO2 — because the alternate wins only on a
strictly later timestamp. -/
theorem c10_equal_timestamp_tie (mw : ℚ) (info : ApplianceInfo) (a : Appliance)
    (v0 v1 w0 w1 : ℤ) :
    (a.properties.reported.filterLife = some v0 →
     a.properties.reported.filterLife1 = some v1 →
     a.properties.reported.metadata.filterLife1.lastUpdated =
       a.properties.reported.metadata.filterLife.lastUpdated →
     valuesFor .filterLife (collectAppliance mw info a) = [(v0 : ℚ) / 100])
  ∧ (a.properties.reported.co2 = some w0 →
     a.properties.reported.eco2 = some w1 →
     a.properties.reported.metadata.eco2.lastUpdated =
       a.properties.reported.metadata.co2.lastUpdated →
     valuesFor .co2 (collectAppliance mw info a) = [(w0 : ℚ)]) := by
  have key1 : valuesFor .filterLife (collectAppliance mw info a)
      = ((filterLifeResolved a.properties.reported).map
          (fun v => (v : ℚ) / 100)).toList := by
    simp only [collectAppliance, valuesFor_append, valuesFor_optSample_self,
      valuesFor_optSample_of_ne, reduceCtorEq, not_false_iff,
      List.append_nil, List.nil_append]
  have key2 : valuesFor .co2 (collectAppliance mw info a)
      = ((co2Resolved a.properties.reported).map (fun v => (v : ℚ))).toList := by
    simp only [collectAppliance, valuesFor_append, valuesFor_optSample_self,
      valuesFor_optSample_of_ne, reduceCtorEq, not_false_iff,
      List.append_nil, List.nil_append]
  refine ⟨fun h0 h1 heq => ?_, fun h0 h1 heq => ?_⟩
  · rw [key1]; simp [filterLifeResolved, h0, h1, heq]
  · rw [key2]; simp [co2Resolved, h0, h1, heq]

theorem c10_witness :
    valuesFor .filterLife (collectAppliance 1 infoAP apTies) = [(80 : ℚ) / 100]
  ∧ valuesFor .co2 (collectAppliance 1 infoAP apTies) = [(700 : ℚ)] :=
  ⟨(c10_equal_timestamp_tie 1 infoAP apTies 80 60 700 650).1 rfl rfl rfl,
   (c10_equal_timestamp_tie 1 infoAP apTies 80 60 700 650).2 rfl rfl rfl⟩

/-- Claim C4: every present TVOC reading emits a VOC-density sample equal to
(101.325 · molecular weight · ppb) / (8.31446261815324 · (273.15 + T))
rounded to 2 decimals, where T is the reported temperature when present and
25 °C otherwise; an absent temperature gives exactly the density of an
explicit 25 °C reading. -/
theorem c4_voc_density (mw : ℚ) (info : ApplianceInfo) (a : Appliance) (ppb : ℤ)
    (h : a.properties.reported.tvoc = some ppb) :
    valuesFor .vocDensity (collectAppliance mw info a)
        = [round ((101.325 * mw * (ppb : ℚ)) /
            (8.31446261815324 *
              (273.15 + (vocTemperature a.properties.reported : ℚ)))) 2]
  ∧ vocTemperature a.properties.reported = a.properties.reported.temp.getD 25
  ∧ (a.properties.reported.temp = none →
     valuesFor .vocDensity (collectAppliance mw info a)
       = valuesFor .vocDensity (collectAppliance mw info (withTemp25 a))) := by
  have key : ∀ b : Appliance, valuesFor .vocDensity (collectAppliance mw info b)
      = (b.properties.reported.tvoc.map
          (fun p =>
            round (tvocPPBToVocDensity p (vocTemperature b.properties.reported) mw) 2)).toList := by
    intro b
    simp only [collectAppliance, valuesFor_append, valuesFor_optSample_self,
      valuesFor_optSample_of_ne, reduceCtorEq, not_false_iff,
      List.append_nil, List.nil_append]
  refine ⟨?_, ?_, fun hnone => ?_⟩
  · rw [key]
    simp [h, tvocPPBToVocDensity]
  · cases htemp : a.properties.reported.temp <;> simp [vocTemperature, htemp]
  · rw [key, key]
    have htv : (withTemp25 a).properties.reported.tvoc = a.properties.reported.tvoc := rfl
    have ht : (withTemp25 a).properties.reported.temp = some 25 := rfl
    simp [h, htv, ht, vocTemperature, hnone]

theorem c4_witness :
    valuesFor .vocDensity (collectAppliance 30.026 infoAP apTvoc)
        = [round ((101.325 * (30.026 : ℚ) * ((100 : ℤ) : ℚ)) /
            (8.31446261815324 *
              (273.15 + (vocTemperature apTvoc.properties.reported : ℚ)))) 2]
  ∧ vocTemperature apTvoc.properties.reported
      = apTvoc.properties.reported.temp.getD 25
  ∧ valuesFor .vocDensity (collectAppliance 30.026 infoAP apTvoc)
      = valuesFor .vocDensity (collectAppliance 30.026 infoAP (withTemp25 apTvoc)) := by
  obtain ⟨h1, h2, h3⟩ := c4_voc_density 30.026 infoAP apTvoc 100 rfl
  exact ⟨h1, h2, h3 rfl⟩

/-- Claim C5: fan-speed normalization depends only on the model name and the
raw speed; a model in the table yields the ratio raw/max rounded to 2
decimals plus the max as a separate sample, a model not in the table yields
neither sample. -/
theorem c5_fanspeed_normalization (mw : ℚ) (info : ApplianceInfo) (a : Appliance) :
    ((fanspeed a.applianceData.modelName a.properties.reported.fanspeed).2.2 = true →
       (fanspeed a.applianceData.modelName a.properties.reported.fanspeed).1
         = (a.properties.reported.fanspeed : ℚ)
             / (fanspeed a.applianceData.modelName a.properties.reported.fanspeed).2.1
     ∧ valuesFor .fanspeed (collectAppliance mw info a)
         = [round (fanspeed a.applianceData.modelName a.properties.reported.fanspeed).1 2]
     ∧ valuesFor .fanspeedMax (collectAppliance mw info a)
         = [(fanspeed a.applianceData.modelName a.properties.reported.fanspeed).2.1])
  ∧ ((fanspeed a.applianceData.modelName a.properties.reported.fanspeed).2.2 = false →
       valuesFor .fanspeed (collectAppliance mw info a) = []
     ∧ valuesFor .fanspeedMax (collectAppliance mw info a) = []) := by
  have hratio : ∀ (m : String) (s : ℤ), (fanspeed m s).2.2 = true →
      (fanspeed m s).1 = (s : ℚ) / (fanspeed m s).2.1 := by
    intro m s hm
    by_cases h1 : m = "PUREA9" ∨ m = "AX9" <;>
      by_cases h2 : m = "WELLA5" ∨ m = "AX5" ∨ m = "WELLA7" ∨ m = "AX7" <;>
      by_cases h3 : m = "FLOWA3" ∨ m = "AX3" <;>
      by_cases h4 : m = "Muju" ∨ m = "PURE500" <;>
      simp_all [fanspeed]
  have key1 : valuesFor .fanspeed (collectAppliance mw info a)
      = (if (fanspeed a.applianceData.modelName a.properties.reported.fanspeed).2.2 then
           some (round (fanspeed a.applianceData.modelName a.properties.reported.fanspeed).1 2)
         else none).toList := by
    simp only [collectAppliance, valuesFor_append, valuesFor_optSample_self,
      valuesFor_optSample_of_ne, reduceCtorEq, not_false_iff,
      List.append_nil, List.nil_append]
  have key2 : valuesFor .fanspeedMax (collectAppliance mw info a)
      = (if (fanspeed a.applianceData.modelName a.properties.reported.fanspeed).2.2 then
           some (fanspeed a.applianceData.modelName a.properties.reported.fanspeed).2.1
         else none).toList := by
    simp only [collectAppliance, valuesFor_append, valuesFor_optSample_self,
      valuesFor_optSample_of_ne, reduceCtorEq, not_false_iff,
      List.append_nil, List.nil_append]
  refine ⟨fun hok => ⟨hratio _ _ hok, ?_, ?_⟩, fun hno => ⟨?_, ?_⟩⟩
  · rw [key1]; simp [hok]
  · rw [key2]; simp [hok]
  · rw [key1]; simp [hno]
  · rw [key2]; simp [hno]

theorem c5_witness :
    valuesFor .fanspeed (collectAppliance 1 infoAP apFan) = [(33 : ℚ) / 100]
  ∧ valuesFor .fanspeedMax (collectAppliance 1 infoAP apFan) = [(9 : ℚ)]
  ∧ (fanspeed apFan.applianceData.modelName apFan.properties.reported.fanspeed).1
      = (3 : ℚ) / 9
  ∧ valuesFor .fanspeed (collectAppliance 1 infoAP apFanUnknown) = []
  ∧ valuesFor .fanspeedMax (collectAppliance 1 infoAP apFanUnknown) = [] := by
  obtain ⟨hr, hs, hm⟩ := (c5_fanspeed_normalization 1 infoAP apFan).1 (by decide)
  obtain ⟨hs2, hm2⟩ := (c5_fanspeed_normalization 1 infoAP apFanUnknown).2 (by decide)
  have hfs : fanspeed apFan.applianceData.modelName apFan.properties.reported.fanspeed
      = ((3 : ℚ) / 9, 9, true) := by
    simp [apFan, mkAp, modelKnown, rep0, fanspeed]
  refine ⟨?_, ?_, ?_, hs2, hm2⟩
  · rw [hs, hfs]
    simp only [round, mathRound]
    norm_num
  · rw [hm, hfs]
  · rw [hr, hfs]
    have h3 : apFan.properties.reported.fanspeed = (3 : ℤ) := rfl
    rw [h3]
    norm_num

/-- Claim C6: a failing list fetch, or a failing batch info fetch, aborts
the pass with zero samples and an unchanged cache, and the pass still
returns normally (collect is a total function). -/
theorem c6_fetch_failure_aborts (client : Client) (mw : ℚ) (c : Cache) :
    (∀ e, client.appliances = .error e →
       collect client mw c = ⟨[], c, []⟩)
  ∧ (∀ e appliances, client.appliances = .ok appliances →
       (uncachedIDs c appliances).isEmpty = false →
       client.appliancesInfo (uncachedIDs c appliances) = .error e →
       collect client mw c = ⟨[], c, [uncachedIDs c appliances]⟩) := by
  constructor
  · intro e he
    simp [collect, he]
  · intro e appliances hok hne hinfo
    simp [collect, hok, hne, hinfo]

theorem c6_witness :
    collect clientListErr 1 [] = ⟨[], [], []⟩
  ∧ collect clientInfoErr 1 [] = ⟨[], [], [uncachedIDs [] [apNone]]⟩ :=
  ⟨(c6_fetch_failure_aborts clientListErr 1 []).1 errMsg rfl,
   (c6_fetch_failure_aborts clientInfoErr 1 []).2 errMsg [apNone] rfl (by decide) rfl⟩

theorem lookup_insert (c : Cache) (k p : String) (v : ApplianceInfo) :
    (Cache.insert c k v).lookup p = if p = k then some v else c.lookup p := by
  by_cases h : p = k
  · subst h
    simp [Cache.insert, Cache.lookup]
  · have hk : ¬ k = p := fun hh => h hh.symm
    simp [Cache.insert, Cache.lookup, h, hk]

theorem lookup_fill_isSome (infos : List ApplianceInfo) (c : Cache) (p : String)
    (h : (∃ i ∈ infos, i.pnc = p) ∨ (c.lookup p).isSome = true) :
    ((fill infos c).lookup p).isSome = true := by
  induction infos generalizing c with
  | nil =>
      rcases h with h | h
      · simp at h
      · simpa [fill] using h
  | cons i is ih =>
      have hstep : fill (i :: is) c = fill is (c.insert i.pnc i) := rfl
      rw [hstep]
      apply ih
      rcases h with ⟨j, hj, hjp⟩ | h
      · rcases List.mem_cons.mp hj with rfl | hj2
        · right
          subst hjp
          rw [lookup_insert]
          simp
        · exact Or.inl ⟨j, hj2, hjp⟩
      · right
        rw [lookup_insert]
        by_cases hpk : p = i.pnc <;> simp [hpk, h]

theorem uncachedIDs_eq_nil (c : Cache) (appliances : List Appliance)
    (h : ∀ a ∈ appliances, (c.lookup a.applianceID.pnc).isSome = true) :
    uncachedIDs c appliances = [] := by
  unfold uncachedIDs
  have hf : appliances.filter (fun a => (c.lookup a.applianceID.pnc).isNone) = [] := by
    rw [List.filter_eq_nil_iff]
    intro a ha
    have := h a ha
    cases hx : c.lookup a.applianceID.pnc <;> simp_all
  rw [hf]
  rfl

/-- Claim C7: the batch info fetch is issued for exactly the listed
appliances with no cached info (no call at all when there are none), and a
second pass over the same list issues no further fetch and leaves the cache
unchanged, provided the first fetch succeeded and covered the requested
appliances. -/
theorem c7_cache_fill_idempotent (client : Client) (mw : ℚ) (c : Cache)
    (appliances : List Appliance) (infos : List ApplianceInfo)
    (hok : client.appliances = .ok appliances) :
    (collect client mw c).infoCalls
        = (if (uncachedIDs c appliances).isEmpty then []
           else [uncachedIDs c appliances])
  ∧ (client.appliancesInfo (uncachedIDs c appliances) = .ok infos →
     (∀ a ∈ appliances, ∃ i ∈ infos, i.pnc = a.applianceID.pnc) →
       (collect client mw (collect client mw c).cache).infoCalls = []
     ∧ (collect client mw (collect client mw c).cache).cache
         = (collect client mw c).cache) := by
  constructor
  · by_cases hemp : (uncachedIDs c appliances).isEmpty
    · simp [collect, hok, hemp]
    · cases hinfo : client.appliancesInfo (uncachedIDs c appliances) <;>
        simp [collect, hok, hemp, hinfo]
  · intro hinfo hcov
    by_cases hemp : (uncachedIDs c appliances).isEmpty
    · have hc : (collect client mw c).cache = c := by simp [collect, hok, hemp]
      rw [hc]
      constructor <;> simp [collect, hok, hemp]
    · have hc : (collect client mw c).cache = fill infos c := by
        simp [collect, hok, hemp, hinfo]
      have hall : ∀ a ∈ appliances,
          ((fill infos c).lookup a.applianceID.pnc).isSome = true := by
        intro a ha
        exact lookup_fill_isSome infos c _ (Or.inl (hcov a ha))
      have hnil : uncachedIDs (fill infos c) appliances = [] :=
        uncachedIDs_eq_nil _ _ hall
      rw [hc]
      constructor <;> simp [collect, hok, hnil]

theorem c7_witness :
    (collect clientOK 1 []).infoCalls
        = (if (uncachedIDs [] [apNone]).isEmpty then []
           else [uncachedIDs [] [apNone]])
  ∧ (collect clientOK 1 (collect clientOK 1 []).cache).infoCalls = []
  ∧ (collect clientOK 1 (collect clientOK 1 []).cache).cache
      = (collect clientOK 1 []).cache := by
  obtain ⟨h1, h2⟩ := c7_cache_fill_idempotent clientOK 1 [] [apNone] [infoAP] rfl
  obtain ⟨h3, h4⟩ := h2 rfl (by decide)
  exact ⟨h1, h3, h4⟩

end ElxCollector
